import Mathlib

/-!
Shallow embedding of the SolidFire flocker block-device driver
(solidfire_flocker_driver/solidfire_driver.py) and verification of its
specification claims.

The driver's methods are modelled as pure functions over explicit inputs:
the cluster's responses (volume list, iSCSI session list, delete outcome)
and the local OS probes (path existence, discovered targets, login result)
are arguments, and each operation returns the list of cluster/OS calls it
issued together with its result (`Except` models Python exceptions).
-/

namespace SFDriver

/-- A Python value as it appears in identifier comparisons: the driver holds
volume identifiers as unicode strings while the cluster returns them as JSON
integers. Python `==` across the two types is `False`, which `pyEq` models. -/
inductive PyVal where
  | pyStr : String → PyVal
  | pyInt : Int → PyVal
deriving DecidableEq, Repr

/-- Python `==` on such values: equal only when of the same type and equal there. -/
def pyEq : PyVal → PyVal → Bool
  | PyVal.pyStr a, PyVal.pyStr b => a == b
  | PyVal.pyInt a, PyVal.pyInt b => a == b
  | _, _ => false

/-- Whitespace stripped by Python `int(s)` around the digits. -/
def pySpace (c : Char) : Bool :=
  c == ' ' || c == '\t' || c == '\n' || c == '\r'

/-- Strip `pySpace` from both ends. -/
def pyStrip (l : List Char) : List Char :=
  ((l.dropWhile pySpace).reverse.dropWhile pySpace).reverse

/-- The value of a non-empty all-digit run, accumulator form. -/
def decValAux : List Char → Nat → Option Nat
  | [], acc => some acc
  | c :: cs, acc => if c.isDigit then decValAux cs (acc * 10 + (c.toNat - 48)) else none

/-- The value of a decimal digit run; `none` when empty or not all digits. -/
def decVal : List Char → Option Nat
  | [] => none
  | l => decValAux l 0

/-- Python `int(s)` on a string: optional surrounding whitespace, optional
sign, then decimal digits; anything else raises ValueError (modelled `none`). -/
def pyIntStr (s : String) : Option Int :=
  match pyStrip s.toList with
  | '-' :: rest => (decVal rest).map (fun n => -(n : Int))
  | '+' :: rest => (decVal rest).map (fun n => (n : Int))
  | t => (decVal t).map (fun n => (n : Int))

/-- Whether `p` occurs as a contiguous sublist of the second list
(Python's `pat in s` on strings). -/
def hasSub (p : List Char) : List Char → Bool
  | [] => p.isPrefixOf []
  | c :: cs => p.isPrefixOf (c :: cs) || hasSub p cs

/-- Python `pat in s` for strings. -/
def hasSubStr (s pat : String) : Bool := hasSub pat.toList s.toList

/-- Remove the leftmost occurrences of `p`, scanning left to right and never
overlapping, as Python's `s.replace(p, '')` does; `fuel` bounds the recursion
and any `fuel ≥ length of the list` gives the replace semantics. -/
def removeAllAux (p : List Char) : Nat → List Char → List Char
  | _, [] => []
  | 0, l => l
  | fuel + 1, c :: cs =>
    if !p.isEmpty && p.isPrefixOf (c :: cs) then
      removeAllAux p fuel ((c :: cs).drop p.length)
    else
      c :: removeAllAux p fuel cs

/-- Python `s.replace(pat, '')`. -/
def strRemoveAll (s pat : String) : String :=
  String.mk (removeAllAux pat.toList s.toList.length s.toList)

/-- Hexadecimal digit test used by the UUID model. -/
def isHexDigit (c : Char) : Bool :=
  c.isDigit || ('a' ≤ c && c ≤ 'f') || ('A' ≤ c && c ≤ 'F')

/-- The canonical lowercase hyphenated form of 32 hex digits (8-4-4-4-12). -/
def uuidCanon (hex : List Char) : String :=
  let h := hex.map Char.toLower
  String.mk (h.take 8 ++ '-' :: (h.drop 8).take 4 ++ '-' :: (h.drop 12).take 4
    ++ '-' :: (h.drop 16).take 4 ++ '-' :: h.drop 20)

/-- Models Python `uuid.UUID(s)` on the string forms the driver produces:
hyphens are removed, exactly 32 hex digits must remain (else ValueError,
modelled `none`), and the value canonicalizes to lowercase 8-4-4-4-12 text. -/
def uuidParse (s : String) : Option String :=
  let hex := s.toList.filter (fun c => c ≠ '-')
  if hex.length == 32 && hex.all isHexDigit then some (uuidCanon hex) else none

/-- flocker's BlockDeviceVolume as the driver constructs it (`dataset_id`
held in canonical UUID text form). -/
structure BlockDeviceVolume where
  blockdevice_id : String
  size : Nat
  attached_to : Option String
  dataset_id : String
deriving DecidableEq, Repr

/-- A cluster volume record as returned by ListVolumesForAccount, restricted
to the fields the driver reads. -/
structure SFVolume where
  volumeID : Nat
  name : String
  totalSize : Nat
  iqn : String
  accountID : Nat
deriving DecidableEq, Repr

/-- An entry of ListISCSISessions, restricted to the field the driver reads.
The cluster serves `volumeID` as a JSON integer; the field is kept as a
`PyVal` because the driver compares it with Python `==` against a string. -/
structure ISCSISession where
  volumeID : PyVal
deriving DecidableEq, Repr

/-- sfapi.SolidFireRequestException, restricted to the fields the driver
reads (its error code and message). -/
structure SolidFireRequestException where
  code : Nat
  msg : String
deriving DecidableEq, Repr

/-- The failures driver operations raise. The two bare `Exception`s of
`attach_volume` carry fixed distinct messages
("No targes found during discovery." and
"Failed iSCSI login to device: <id>"), so they are modelled as the distinct
constructors `discoveryError` and `loginError`. -/
inductive DriverError where
  | unknownVolume : String → DriverError
  | alreadyAttachedVolume : String → DriverError
  | unattachedVolume : String → DriverError
  | volumeException : String → DriverError
  | valueError : DriverError
  | discoveryError : DriverError
  | loginError : String → DriverError
  | sfRequestError : SolidFireRequestException → DriverError
deriving DecidableEq, Repr

/-- Decidable equality on `Except`, so concrete operation results can be
checked by evaluation. -/
instance exceptDecEq {ε α : Type} [DecidableEq ε] [DecidableEq α] :
    DecidableEq (Except ε α) := fun x y =>
  match x, y with
  | Except.ok a, Except.ok b =>
    if h : a = b then Decidable.isTrue (by rw [h])
    else Decidable.isFalse (by intro he; cases he; exact h rfl)
  | Except.error a, Except.error b =>
    if h : a = b then Decidable.isTrue (by rw [h])
    else Decidable.isFalse (by intro he; cases he; exact h rfl)
  | Except.ok _, Except.error _ => Decidable.isFalse (by intro he; cases he)
  | Except.error _, Except.ok _ => Decidable.isFalse (by intro he; cases he)

/-- The qos block is a Python dict of field names to integers. -/
abbrev QosBlock := List (String × Nat)

/-- The parameter map the driver passes to the cluster's CreateVolume call. -/
structure CreateVolumeParams where
  name : String
  accountID : Nat
  sliceCount : Nat
  totalSize : Nat
  enable512e : Bool
  qos : Option QosBlock
deriving DecidableEq, Repr

/-- The cluster and OS calls an operation can issue, recorded in order. -/
inductive Call where
  | listVolumesForAccount : Nat → Call
  | listISCSISessions : Call
  | iscsiDiscovery : String → Call
  | iscsiLogin : String → String → Call
  | iscsiLogout : String → String → Call
  | createVolume : CreateVolumeParams → Call
  | addVolumesToVAG : Nat → List Int → Call
  | deleteVolume : Int → Call
  | modifyVolume : Nat → Nat → Call
  | pathProbe : String → Call
deriving DecidableEq, Repr

/-- The driver's bootstrap state, fixed at initialization. -/
structure DriverCfg where
  svip : String
  volume_prefix : String
  account_id : Nat
  vag_id : Nat
  profiles : List (String × List (String × Nat))

/-- The external world an operation observes: the cluster's volume and
session lists and the local OS adapter's probe results. -/
structure DriverEnv where
  volumes : List SFVolume
  sessions : List ISCSISession
  path_exists : String → Bool
  discovered : List String
  login_ok : String → Bool
  realpath : String → String

/-- Python `d.get(k, None)` on a dict modelled as an association list. -/
def dictGet {α : Type} : List (String × α) → String → Option α
  | [], _ => none
  | (k2, v) :: rest, k => if k2 == k then some v else dictGet rest k

/-- Python `k in d` on a dict modelled as an association list. -/
def hasKey {α : Type} (l : List (String × α)) (k : String) : Bool :=
  (dictGet l k).isSome

/-- The built-in profile tiers of `_set_profiles`. -/
def default_profiles : List (String × List (String × Nat)) :=
  [("Gold", [("minIOPS", 5000), ("maxIOPS", 8000), ("burstIOPS", 15000)]),
   ("Silver", [("minIOPS", 3000), ("maxIOPS", 5000), ("burstIOPS", 10000)]),
   ("Bronze", [("minIOPS", 1000), ("maxIOPS", 3000), ("burstIOPS", 5000)])]

/-- `_set_profiles`: the configured mapping if one was supplied, else the
built-in tiers. -/
def set_profiles (config_profiles : Option (List (String × List (String × Nat)))) :
    List (String × List (String × Nat)) :=
  config_profiles.getD default_profiles

/-- `_process_profile`: look the name up; a falsy result (absent name, `None`
name, or an empty record) is logged and returned as is; a non-empty record
missing any of minIOPS/maxIOPS/burstIOPS becomes `None`. -/
def process_profile (profiles : List (String × List (String × Nat)))
    (profile_name : Option String) : Option (List (String × Nat)) :=
  let profile := profile_name.bind (fun n => dictGet profiles n)
  match profile with
  | none => none
  | some p =>
    if p.isEmpty then some p
    else if hasKey p "minIOPS" && hasKey p "maxIOPS" && hasKey p "burstIOPS" then some p
    else none

/-- `_get_solidfire_volume`: linear scan of the account's volumes comparing
`int(v['volumeID']) == int(solidfire_id)`; the conversion of `solidfire_id`
happens inside the loop body, so it raises ValueError only when at least one
volume is compared. -/
def get_solidfire_volume (volumes : List SFVolume) (solidfire_id : String) :
    Except DriverError (Option SFVolume) :=
  match volumes with
  | [] => Except.ok none
  | v :: rest =>
    match pyIntStr solidfire_id with
    | none => Except.error DriverError.valueError
    | some n =>
      if (v.volumeID : Int) == n then Except.ok (some v)
      else get_solidfire_volume rest solidfire_id

/-- `_current_iscsi_sessions`: keep the sessions whose `volumeID` equals
`sf_volid` under Python `==` (no integer canonicalization in the source). -/
def current_iscsi_sessions (sessions : List ISCSISession) (sf_volid : PyVal) :
    List ISCSISession :=
  sessions.filter (fun s => pyEq sf_volid s.volumeID)

/-- The by-path device path the driver formats for a target
(`/dev/disk/by-path/ip-<svip>-iscsi-<iqn>-lun-0`). -/
def device_path (svip iqn : String) : String :=
  "/dev/disk/by-path/ip-" ++ svip ++ "-iscsi-" ++ iqn ++ "-lun-0"

/-- `attach_volume`: lookup, local-path guard, session guard, discovery,
login, then the returned BlockDeviceVolume whose dataset_id is
`uuid.UUID(str(vol['name']))`. -/
def attach_volume (cfg : DriverCfg) (env : DriverEnv)
    (blockdevice_id attach_to : String) :
    List Call × Except DriverError BlockDeviceVolume :=
  let t0 : List Call := [Call.listVolumesForAccount cfg.account_id]
  match get_solidfire_volume env.volumes blockdevice_id with
  | Except.error e => (t0, Except.error e)
  | Except.ok none => (t0, Except.error (DriverError.unknownVolume blockdevice_id))
  | Except.ok (some vol) =>
    let tgt_iqn := vol.iqn
    let probe := device_path cfg.svip tgt_iqn
    let t1 := t0 ++ [Call.pathProbe probe]
    if env.path_exists probe then
      (t1, Except.error (DriverError.alreadyAttachedVolume blockdevice_id))
    else
      let t2 := t1 ++ [Call.listISCSISessions]
      if !(current_iscsi_sessions env.sessions (PyVal.pyStr blockdevice_id)).isEmpty then
        (t2, Except.error (DriverError.alreadyAttachedVolume blockdevice_id))
      else
        let t3 := t2 ++ [Call.iscsiDiscovery cfg.svip]
        if env.discovered.length < 1 && !(env.discovered.contains tgt_iqn) then
          (t3, Except.error DriverError.discoveryError)
        else
          let t4 := t3 ++ [Call.iscsiLogin cfg.svip tgt_iqn]
          if env.login_ok tgt_iqn then
            match uuidParse vol.name with
            | some d =>
              (t4, Except.ok (BlockDeviceVolume.mk blockdevice_id vol.totalSize
                (some attach_to) d))
            | none => (t4, Except.error DriverError.valueError)
          else
            (t4, Except.error (DriverError.loginError blockdevice_id))

/-- `detach_volume`: lookup, unattached guard on the local path, logout. -/
def detach_volume (cfg : DriverCfg) (env : DriverEnv) (blockdevice_id : String) :
    List Call × Except DriverError Unit :=
  let t0 : List Call := [Call.listVolumesForAccount cfg.account_id]
  match get_solidfire_volume env.volumes blockdevice_id with
  | Except.error e => (t0, Except.error e)
  | Except.ok none => (t0, Except.error (DriverError.unknownVolume blockdevice_id))
  | Except.ok (some vol) =>
    let probe := device_path cfg.svip vol.iqn
    let t1 := t0 ++ [Call.pathProbe probe]
    if !(env.path_exists probe) then
      (t1, Except.error (DriverError.unattachedVolume blockdevice_id))
    else
      (t1 ++ [Call.iscsiLogout cfg.svip vol.iqn], Except.ok ())

/-- `resize_volume`: lookup, reject any size not strictly larger than the
current one, else issue ModifyVolume with the new size. -/
def resize_volume (cfg : DriverCfg) (env : DriverEnv) (blockdevice_id : String)
    (size : Nat) : List Call × Except DriverError Unit :=
  let t0 : List Call := [Call.listVolumesForAccount cfg.account_id]
  match get_solidfire_volume env.volumes blockdevice_id with
  | Except.error e => (t0, Except.error e)
  | Except.ok none => (t0, Except.error (DriverError.unknownVolume blockdevice_id))
  | Except.ok (some vol) =>
    if size ≤ vol.totalSize then
      (t0, Except.error (DriverError.volumeException blockdevice_id))
    else
      (t0 ++ [Call.modifyVolume vol.volumeID size], Except.ok ())

/-- `destroy_volume`: `int(blockdevice_id)` is computed while building the
params, before any cluster call; a delete failure whose message contains
xVolumeIDDoesNotExist becomes UnknownVolume, any other failure re-raises
unchanged. `deleteOutcome` is the cluster's response to DeleteVolume. -/
def destroy_volume (blockdevice_id : String)
    (deleteOutcome : Except SolidFireRequestException Unit) :
    List Call × Except DriverError Unit :=
  match pyIntStr blockdevice_id with
  | none => ([], Except.error DriverError.valueError)
  | some n =>
    match deleteOutcome with
    | Except.ok _ => ([Call.deleteVolume n], Except.ok ())
    | Except.error ex =>
      if hasSubStr ex.msg "xVolumeIDDoesNotExist" then
        ([Call.deleteVolume n], Except.error (DriverError.unknownVolume blockdevice_id))
      else
        ([Call.deleteVolume n], Except.error (DriverError.sfRequestError ex))

/-- `get_device_path`: lookup then resolve the expected by-path entry.
The utils helpers (get_expected_disk_path, get_device_file_from_path and the
realpath resolution) are not in the repository's files; modelled from the
spec: the expected device path is a deterministic function of
(serviceIP, targetIQN) and its resolution to a device file is an OS probe,
kept as the environment function `realpath`. -/
def get_device_path (cfg : DriverCfg) (env : DriverEnv) (blockdevice_id : String) :
    List Call × Except DriverError String :=
  let t0 : List Call := [Call.listVolumesForAccount cfg.account_id]
  match get_solidfire_volume env.volumes blockdevice_id with
  | Except.error e => (t0, Except.error e)
  | Except.ok none => (t0, Except.error (DriverError.unknownVolume blockdevice_id))
  | Except.ok (some vol) =>
    (t0, Except.ok (env.realpath (device_path cfg.svip vol.iqn)))

/-- The cluster's volume store: the volumes it holds and the next volume
identifier it will assign (cluster-assigned, never client-generated). -/
structure ClusterState where
  volumes : List SFVolume
  nextID : Nat
deriving DecidableEq, Repr

/-- Modelled from the spec: the cluster assigns the new volume's target IQN;
it is some deterministic cluster-side function of the volume, kept abstract
only in that the driver never computes it. -/
def cluster_iqn (vname : String) (vid : Nat) : String :=
  "iqn.2010-01.com.solidfire:" ++ vname ++ "." ++ toString vid

/-- The `if profile:` block of `create_volume_with_profile`: a truthy
profile yields a qos dict holding exactly the three known fields, read from
the profile record (present by `_process_profile`'s guard; the `getD 0`
default is unreachable under it). -/
def qos_params (profile : Option (List (String × Nat))) : Option QosBlock :=
  match profile with
  | some p =>
    if !p.isEmpty then
      some [("minIOPS", (dictGet p "minIOPS").getD 0),
            ("maxIOPS", (dictGet p "maxIOPS").getD 0),
            ("burstIOPS", (dictGet p "burstIOPS").getD 0)]
    else none
  | none => none

/-- `create_volume_with_profile`: name the volume `<prefix><dataset_id>`,
resolve the profile, build the CreateVolume params (a truthy profile adds
the qos block of `qos_params`), issue CreateVolume and
AddVolumesToVolumeAccessGroup, and return the BlockDeviceVolume whose
dataset_id is `uuid.UUID(dataset_id)` (parsed after the cluster calls, so a
bad dataset_id raises only then). -/
def create_volume_with_profile (cfg : DriverCfg) (st : ClusterState)
    (dataset_id : String) (size : Nat) (profile_name : Option String) :
    List Call × ClusterState × Except DriverError BlockDeviceVolume :=
  let vname := cfg.volume_prefix ++ dataset_id
  let profile := process_profile cfg.profiles profile_name
  let qos : Option QosBlock := qos_params profile
  let params : CreateVolumeParams :=
    CreateVolumeParams.mk vname cfg.account_id 1 size true qos
  let vid := st.nextID
  let newvol := SFVolume.mk vid vname size (cluster_iqn vname vid) cfg.account_id
  let st2 := ClusterState.mk (st.volumes ++ [newvol]) (vid + 1)
  let calls := [Call.createVolume params, Call.addVolumesToVAG cfg.vag_id [(vid : Int)]]
  match uuidParse dataset_id with
  | some d =>
    (calls, st2, Except.ok (BlockDeviceVolume.mk (toString vid) size none d))
  | none => (calls, st2, Except.error DriverError.valueError)

/-- `create_volume`: delegates to `create_volume_with_profile` with no profile. -/
def create_volume (cfg : DriverCfg) (st : ClusterState) (dataset_id : String)
    (size : Nat) : List Call × ClusterState × Except DriverError BlockDeviceVolume :=
  create_volume_with_profile cfg st dataset_id size none

/-- The name recovery of `list_volumes`: when the fixed marker `flock-`
occurs in the cluster volume name, remove its occurrences, else keep the
name (the configured prefix plays no part in the source). -/
def recover_name (name : String) : String :=
  if hasSubStr name "flock-" then strRemoveAll name "flock-" else name

/-- One iteration of the `list_volumes` loop: recompute `attached_to` by
probing the expected local path, drop the fixed marker `flock-` from the
name when present, and parse the remainder as the dataset UUID. -/
def to_block_device (cfg : DriverCfg) (path_state : String → Bool)
    (instance_id : String) (v : SFVolume) : Except DriverError BlockDeviceVolume :=
  let attached_to := if path_state (device_path cfg.svip v.iqn) then some instance_id else none
  let name := recover_name v.name
  match uuidParse name with
  | some d =>
    Except.ok (BlockDeviceVolume.mk (toString v.volumeID) v.totalSize attached_to d)
  | none => Except.error DriverError.valueError

/-- The `list_volumes` loop over the account's volumes; the first conversion
failure aborts the whole listing, as the Python loop's exception does. -/
def build_volumes (cfg : DriverCfg) (path_state : String → Bool)
    (instance_id : String) : List SFVolume → Except DriverError (List BlockDeviceVolume)
  | [] => Except.ok []
  | v :: rest =>
    match to_block_device cfg path_state instance_id v with
    | Except.error e => Except.error e
    | Except.ok b =>
      match build_volumes cfg path_state instance_id rest with
      | Except.error e => Except.error e
      | Except.ok bs => Except.ok (b :: bs)

/-- `list_volumes`: ListVolumesForAccount, then the per-volume translation. -/
def list_volumes (cfg : DriverCfg) (st : ClusterState) (path_state : String → Bool)
    (instance_id : String) : List Call × Except DriverError (List BlockDeviceVolume) :=
  ([Call.listVolumesForAccount cfg.account_id],
   build_volumes cfg path_state instance_id
     (st.volumes.filter (fun v => v.accountID == cfg.account_id)))

/-- A cluster volume access group, restricted to the fields the driver reads. -/
structure VolumeAccessGroup where
  name : String
  volumeAccessGroupID : Nat
  initiators : List String
deriving DecidableEq, Repr

/-- The mutating access-group calls `_initialize_vag` can issue. -/
inductive VagCall where
  | createVAG : String → List String → VagCall
  | addInitiators : Nat → List String → VagCall
deriving DecidableEq, Repr

/-- The `for v in vags` scan of `_initialize_vag`: the last group whose name
matches wins. -/
def find_vag (vags : List VolumeAccessGroup) (vag_name : String) :
    Option VolumeAccessGroup :=
  vags.foldl (fun acc v => if v.name == vag_name then some v else acc) none

/-- `_initialize_vag`, as the list of mutating access-group calls it issues:
create the group seeded with the local iqns when absent; when present, add
exactly the iqns missing from its registered initiators, and only when at
least one is missing. -/
def initialize_vag (vags : List VolumeAccessGroup) (vag_name : String)
    (iqns : List String) : List VagCall :=
  match find_vag vags vag_name with
  | none => [VagCall.createVAG vag_name iqns]
  | some vag =>
    let missing_iqns := iqns.filter (fun i => !(vag.initiators.contains i))
    if missing_iqns.length ≥ 1 then
      [VagCall.addInitiators vag.volumeAccessGroupID missing_iqns]
    else []

/-- Modelled from the spec: the cluster's effect of the issued access-group
calls on the group's registered initiator list — CreateVolumeAccessGroup
seeds the listed initiators, AddInitiatorsToVolumeAccessGroup appends the
listed initiators to the registered ones. -/
def vag_after (registered : List String) (calls : List VagCall) : List String :=
  calls.foldl
    (fun acc c =>
      match c with
      | VagCall.createVAG _ inits => inits
      | VagCall.addInitiators _ inits => acc ++ inits)
    registered

/-! ### Concrete fixtures used by the closed theorems and witnesses -/

/-- A canonical dataset UUID. -/
def uuidA : String := "11111111-1111-1111-1111-111111111111"

/-- A driver bootstrap state with an empty volume-name prefix. -/
def cfg0 : DriverCfg := DriverCfg.mk "10.0.0.1:3260" "" 10 77 default_profiles

/-- A driver bootstrap state with the prefix `flock-`. -/
def cfgF : DriverCfg := DriverCfg.mk "10.0.0.1:3260" "flock-" 10 77 default_profiles

/-- A driver bootstrap state with the prefix `pre-`. -/
def cfgP : DriverCfg := DriverCfg.mk "10.0.0.1:3260" "pre-" 10 77 default_profiles

/-- A cluster volume named by the bare dataset UUID. -/
def vol5 : SFVolume := SFVolume.mk 5 uuidA 1073741824 "iqn.vol5" 10

/-- A cluster volume named `flock-<uuid>`. -/
def vol5F : SFVolume :=
  SFVolume.mk 5 "flock-11111111-1111-1111-1111-111111111111" 1073741824 "iqn.vol5" 10

/-- An environment with a live cluster iSCSI session for volume 5 (the
cluster serves the volumeID as an integer), no local device path, and a
discoverable, log-in-able target. -/
def envSession : DriverEnv :=
  DriverEnv.mk [vol5] [ISCSISession.mk (PyVal.pyInt 5)] (fun _ => false)
    ["iqn.vol5"] (fun _ => true) (fun p => p)

/-- An environment where discovery returns targets, none of them the
expected one. -/
def envOtherTarget : DriverEnv :=
  DriverEnv.mk [vol5] [] (fun _ => false) ["iqn.other"] (fun _ => true) (fun p => p)

/-- An environment holding only the `flock-`-prefixed volume, attachable. -/
def envPrefixed : DriverEnv :=
  DriverEnv.mk [vol5F] [] (fun _ => false) ["iqn.vol5"] (fun _ => true) (fun p => p)

/-- An environment with volume 5 present and everything attachable. -/
def envPlain : DriverEnv :=
  DriverEnv.mk [vol5] [] (fun _ => false) ["iqn.vol5"] (fun _ => true) (fun p => p)

/-! ### Claim theorems: the attach guards and the attach result -/

/-- C1: the spec says an attach on a volume with a live cluster iSCSI
session (volume identifiers compared as decimal integers) fails
Already-Attached before discovery or login. The code compares the unicode
blockdevice_id against the cluster's integer volumeID with raw `==`, which
is always false, so at the failing input — blockdevice_id "5" with a live
session whose volumeID is the integer 5 — the session guard selects no
session, attach does not fail Already-Attached, and both discovery and
login are attempted. -/
theorem attach_session_guard_dead :
    current_iscsi_sessions [ISCSISession.mk (PyVal.pyInt 5)] (PyVal.pyStr "5") = [] ∧
    (attach_volume cfg0 envSession "5" "host-a").2 ≠
      Except.error (DriverError.alreadyAttachedVolume "5") ∧
    Call.iscsiDiscovery "10.0.0.1:3260" ∈ (attach_volume cfg0 envSession "5" "host-a").1 ∧
    Call.iscsiLogin "10.0.0.1:3260" "iqn.vol5" ∈ (attach_volume cfg0 envSession "5" "host-a").1 := by
  decide

/-- C4 counterexample: discovery returns a non-empty target list that does
not contain the expected target IQN (`iqn.vol5` is absent, only `iqn.other`
was returned); the claim demands an attachment failure with no login, but
the code — whose guard is a conjunction, not a disjunction — attempts the
login and returns success. -/
theorem attach_absent_target_cex :
    (attach_volume cfg0 envOtherTarget "5" "host-a").2 =
      Except.ok (BlockDeviceVolume.mk "5" 1073741824 (some "host-a") uuidA) ∧
    Call.iscsiLogin "10.0.0.1:3260" "iqn.vol5" ∈
      (attach_volume cfg0 envOtherTarget "5" "host-a").1 := by
  decide

/-- C4 (amended): past both double-attach guards, attach fails with the
discovery error exactly when discovery returned no targets at all; the
absent-expected-target condition never fires on its own (it sits under a
conjunction with emptiness), and login is attempted exactly when the
returned target list is non-empty, whether or not it holds the expected
IQN. -/
theorem attach_discovery_guard (cfg : DriverCfg) (env : DriverEnv)
    (blockdevice_id attach_to : String) (vol : SFVolume)
    (hlook : get_solidfire_volume env.volumes blockdevice_id = Except.ok (some vol))
    (hpath : env.path_exists (device_path cfg.svip vol.iqn) = false)
    (hsess : current_iscsi_sessions env.sessions (PyVal.pyStr blockdevice_id) = []) :
    ((attach_volume cfg env blockdevice_id attach_to).2 =
        Except.error DriverError.discoveryError ↔ env.discovered = []) ∧
    (Call.iscsiLogin cfg.svip vol.iqn ∈ (attach_volume cfg env blockdevice_id attach_to).1
        ↔ env.discovered ≠ []) := by
  unfold attach_volume
  rw [hlook]
  simp only [hpath, hsess, List.isEmpty_nil, Bool.not_true, if_neg, Bool.false_eq_true,
    not_false_eq_true, if_false]
  cases hd : env.discovered with
  | nil =>
    simp
  | cons c cs =>
    rw [if_neg (by simp)]
    cases hlogin : env.login_ok vol.iqn with
    | false => simp
    | true =>
      cases hu : uuidParse vol.name with
      | none => simp
      | some d => simp

/-- Witness for `attach_discovery_guard` at a concrete attachable state. -/
theorem attach_discovery_guard_w :
    ((attach_volume cfg0 envPlain "5" "host-a").2 =
        Except.error DriverError.discoveryError ↔ envPlain.discovered = []) ∧
    (Call.iscsiLogin cfg0.svip vol5.iqn ∈ (attach_volume cfg0 envPlain "5" "host-a").1
        ↔ envPlain.discovered ≠ []) :=
  attach_discovery_guard cfg0 envPlain "5" "host-a" vol5 (by decide) (by decide) (by decide)

/-- C9 counterexample: with the configured prefix `flock-` the fetched
record's name is `flock-<uuid>`; the claim says the returned volume's
datasetId is the name with the prefix stripped, but the code parses the
whole name as a UUID and the attach raises a conversion error instead of
returning a volume. -/
theorem attach_dataset_cex :
    (attach_volume cfgF envPrefixed "5" "host-a").2 = Except.error DriverError.valueError := by
  decide

/-- C9 (amended): when iSCSI login succeeds the returned BlockDeviceVolume
has attachedTo equal to the requested host, size equal to the fetched
record's totalSize, and datasetId obtained by parsing the fetched record's
full volume name as a UUID — no prefix stripping happens, so the claim's
derivation holds exactly when the configured prefix is empty. -/
theorem attach_success_shape (cfg : DriverCfg) (env : DriverEnv)
    (blockdevice_id attach_to : String) (vol : SFVolume) (d : String)
    (hlook : get_solidfire_volume env.volumes blockdevice_id = Except.ok (some vol))
    (hpath : env.path_exists (device_path cfg.svip vol.iqn) = false)
    (hsess : current_iscsi_sessions env.sessions (PyVal.pyStr blockdevice_id) = [])
    (hdisc : env.discovered ≠ [])
    (hlogin : env.login_ok vol.iqn = true)
    (hname : uuidParse vol.name = some d) :
    (attach_volume cfg env blockdevice_id attach_to).2 =
      Except.ok (BlockDeviceVolume.mk blockdevice_id vol.totalSize (some attach_to) d) := by
  unfold attach_volume
  rw [hlook]
  simp only [hpath, hsess, List.isEmpty_nil, Bool.not_true, Bool.false_eq_true,
    not_false_eq_true, if_false]
  cases hd : env.discovered with
  | nil => exact absurd hd hdisc
  | cons c cs =>
    rw [if_neg (by simp)]
    simp [hlogin, hname]

/-- Witness for `attach_success_shape` at a concrete attachable state. -/
theorem attach_success_shape_w :
    (attach_volume cfg0 envPlain "5" "host-a").2 =
      Except.ok (BlockDeviceVolume.mk "5" vol5.totalSize (some "host-a") uuidA) :=
  attach_success_shape cfg0 envPlain "5" "host-a" vol5 uuidA (by decide) (by decide)
    (by decide) (by decide) (by decide) (by decide)

/-! ### Claim theorems: resize, destroy, non-numeric identifiers -/

/-- C5: with the volume found at current size `vol.totalSize`, resize fails
with the Volume-State error exactly when the new size is not a strict
growth; on strict growth it succeeds and issues ModifyVolume with the new
size; on the failing branch no ModifyVolume call is issued. -/
theorem resize_volume_spec (cfg : DriverCfg) (env : DriverEnv) (blockdevice_id : String)
    (size : Nat) (vol : SFVolume)
    (hlook : get_solidfire_volume env.volumes blockdevice_id = Except.ok (some vol)) :
    ((resize_volume cfg env blockdevice_id size).2 =
        Except.error (DriverError.volumeException blockdevice_id) ↔ ¬ vol.totalSize < size) ∧
    (vol.totalSize < size →
       (resize_volume cfg env blockdevice_id size).2 = Except.ok () ∧
       Call.modifyVolume vol.volumeID size ∈ (resize_volume cfg env blockdevice_id size).1) ∧
    (¬ vol.totalSize < size →
       ∀ v s, Call.modifyVolume v s ∉ (resize_volume cfg env blockdevice_id size).1) := by
  unfold resize_volume
  rw [hlook]
  by_cases h : size ≤ vol.totalSize
  · exact ⟨by simp [h, Nat.not_lt], fun hlt => absurd hlt (Nat.not_lt.mpr h),
      fun _ v s => by simp [h]⟩
  · exact ⟨by simp [h, Nat.not_lt], fun _ => ⟨by simp [h], by simp [h]⟩,
      fun hnl => absurd (Nat.not_le.mp h) hnl⟩

/-- Witness for `resize_volume_spec`: growing volume 5 from 1 GiB to 2 GiB
succeeds and issues the ModifyVolume call. -/
theorem resize_volume_spec_w :
    (resize_volume cfg0 envPlain "5" 2147483648).2 = Except.ok () ∧
    Call.modifyVolume 5 2147483648 ∈ (resize_volume cfg0 envPlain "5" 2147483648).1 :=
  (resize_volume_spec cfg0 envPlain "5" 2147483648 vol5 (by decide)).2.1 (by decide)

/-- C6: destroy issues the DeleteVolume call; a cluster failure whose
message carries xVolumeIDDoesNotExist becomes Unknown-Volume, any other
cluster failure propagates unchanged with its code and message, and a
successful delete returns unit. -/
theorem destroy_volume_spec (blockdevice_id : String) (n : Int)
    (h : pyIntStr blockdevice_id = some n) :
    destroy_volume blockdevice_id (Except.ok ()) = ([Call.deleteVolume n], Except.ok ()) ∧
    (∀ ex : SolidFireRequestException,
       (hasSubStr ex.msg "xVolumeIDDoesNotExist" = true →
          destroy_volume blockdevice_id (Except.error ex) =
            ([Call.deleteVolume n],
             Except.error (DriverError.unknownVolume blockdevice_id))) ∧
       (hasSubStr ex.msg "xVolumeIDDoesNotExist" = false →
          destroy_volume blockdevice_id (Except.error ex) =
            ([Call.deleteVolume n], Except.error (DriverError.sfRequestError ex)))) := by
  unfold destroy_volume
  rw [h]
  exact ⟨rfl, fun ex => ⟨fun hm => by simp [hm], fun hm => by simp [hm]⟩⟩

/-- Witness for `destroy_volume_spec`: a successful delete of volume 5, and
a does-not-exist failure translated to Unknown-Volume. -/
theorem destroy_volume_spec_w :
    destroy_volume "5" (Except.ok ()) = ([Call.deleteVolume 5], Except.ok ()) ∧
    destroy_volume "5"
      (Except.error (SolidFireRequestException.mk 500 "xVolumeIDDoesNotExist was returned")) =
      ([Call.deleteVolume 5], Except.error (DriverError.unknownVolume "5")) :=
  ⟨(destroy_volume_spec "5" 5 (by decide)).1,
   ((destroy_volume_spec "5" 5 (by decide)).2
     (SolidFireRequestException.mk 500 "xVolumeIDDoesNotExist was returned")).1 (by decide)⟩

/-- A non-numeric identifier makes the lookup raise ValueError as soon as
one listed volume is compared against it. -/
theorem get_sf_nonnumeric (volumes : List SFVolume) (bid : String)
    (hne : volumes ≠ []) (h : pyIntStr bid = none) :
    get_solidfire_volume volumes bid = Except.error DriverError.valueError := by
  cases volumes with
  | nil => exact absurd rfl hne
  | cons v rest => simp [get_solidfire_volume, h]

/-- C10: for a blockdevice_id that does not parse as a decimal integer,
destroy raises the conversion error before issuing any cluster call, and
each lookup-based operation (attach, detach, resize, get_device_path)
raises the conversion error — not Unknown-Volume — whenever the account
owns at least one volume. -/
theorem nonnumeric_blockdevice_id (bid : String) (h : pyIntStr bid = none) :
    (∀ outcome, destroy_volume bid outcome = ([], Except.error DriverError.valueError)) ∧
    (∀ cfg env host, env.volumes ≠ [] →
       (attach_volume cfg env bid host).2 = Except.error DriverError.valueError) ∧
    (∀ cfg env, env.volumes ≠ [] →
       (detach_volume cfg env bid).2 = Except.error DriverError.valueError) ∧
    (∀ cfg env size, env.volumes ≠ [] →
       (resize_volume cfg env bid size).2 = Except.error DriverError.valueError) ∧
    (∀ cfg env, env.volumes ≠ [] →
       (get_device_path cfg env bid).2 = Except.error DriverError.valueError) := by
  refine ⟨fun outcome => by simp [destroy_volume, h], ?_, ?_, ?_, ?_⟩
  · intro cfg env host hv
    simp [attach_volume, get_sf_nonnumeric env.volumes bid hv h]
  · intro cfg env hv
    simp [detach_volume, get_sf_nonnumeric env.volumes bid hv h]
  · intro cfg env size hv
    simp [resize_volume, get_sf_nonnumeric env.volumes bid hv h]
  · intro cfg env hv
    simp [get_device_path, get_sf_nonnumeric env.volumes bid hv h]

/-- Witness for `nonnumeric_blockdevice_id` at the identifier "abc". -/
theorem nonnumeric_blockdevice_id_w :
    destroy_volume "abc" (Except.ok ()) = ([], Except.error DriverError.valueError) ∧
    (attach_volume cfg0 envPlain "abc" "host-a").2 = Except.error DriverError.valueError :=
  ⟨(nonnumeric_blockdevice_id "abc" (by decide)).1 (Except.ok ()),
   (nonnumeric_blockdevice_id "abc" (by decide)).2.1 cfg0 envPlain "host-a" (by decide)⟩

/-! ### Claim theorems: access-group bootstrap -/

/-- C3: when no group with the deterministic name exists, bootstrap creates
one containing exactly the local initiators L; when a group with registered
initiators R exists, the only mutating call it can issue adds exactly the
initiators of L missing from R (removing none), the group afterwards holds
R union L, with no duplicates when both sides had none; and when L is a
subset of R no mutating access-group call is issued at all. -/
theorem initialize_vag_correct (vags : List VolumeAccessGroup) (vag_name : String)
    (L : List String) :
    (find_vag vags vag_name = none →
       initialize_vag vags vag_name L = [VagCall.createVAG vag_name L] ∧
       vag_after [] (initialize_vag vags vag_name L) = L) ∧
    (∀ g, find_vag vags vag_name = some g →
       (∀ c ∈ initialize_vag vags vag_name L,
          c = VagCall.addInitiators g.volumeAccessGroupID
                (L.filter (fun i => !(g.initiators.contains i)))) ∧
       (∀ x, x ∈ L.filter (fun i => !(g.initiators.contains i)) ↔
          (x ∈ L ∧ x ∉ g.initiators)) ∧
       (∀ x, x ∈ vag_after g.initiators (initialize_vag vags vag_name L) ↔
          (x ∈ g.initiators ∨ x ∈ L)) ∧
       (L.Nodup → g.initiators.Nodup →
          (vag_after g.initiators (initialize_vag vags vag_name L)).Nodup) ∧
       ((∀ x ∈ L, x ∈ g.initiators) → initialize_vag vags vag_name L = [])) := by
  constructor
  · intro hnone
    constructor
    · simp [initialize_vag, hnone]
    · simp [initialize_vag, hnone, vag_after]
  · intro g hg
    have hmem : ∀ x, x ∈ L.filter (fun i => !(g.initiators.contains i)) ↔
        (x ∈ L ∧ x ∉ g.initiators) := by
      intro x
      simp [List.mem_filter]
    by_cases hm : L.filter (fun i => !(g.initiators.contains i)) = []
    · have hcalls : initialize_vag vags vag_name L = [] := by
        simp only [initialize_vag, hg]
        rw [if_neg (by rw [hm]; simp)]
      have hLsub : ∀ x ∈ L, x ∈ g.initiators := by
        intro x hx
        by_contra hnx
        have : x ∈ L.filter (fun i => !(g.initiators.contains i)) := (hmem x).mpr ⟨hx, hnx⟩
        rw [hm] at this
        cases this
      refine ⟨?_, hmem, ?_, ?_, fun _ => hcalls⟩
      · intro c hc
        rw [hcalls] at hc
        cases hc
      · intro x
        rw [hcalls]
        constructor
        · intro hx
          exact Or.inl hx
        · intro hx
          cases hx with
          | inl hx => exact hx
          | inr hx => exact hLsub x hx
      · intro _ hR
        rw [hcalls]
        exact hR
    · have hlen : (L.filter (fun i => !(g.initiators.contains i))).length ≥ 1 := by
        have := List.length_pos.mpr hm
        omega
      have hcalls : initialize_vag vags vag_name L =
          [VagCall.addInitiators g.volumeAccessGroupID
            (L.filter (fun i => !(g.initiators.contains i)))] := by
        simp only [initialize_vag, hg]
        rw [if_pos hlen]
      refine ⟨?_, hmem, ?_, ?_, ?_⟩
      · intro c hc
        rw [hcalls] at hc
        simpa using hc
      · intro x
        rw [hcalls]
        show x ∈ g.initiators ++ L.filter (fun i => !(g.initiators.contains i)) ↔ _
        rw [List.mem_append, hmem x]
        constructor
        · intro hx
          cases hx with
          | inl hx => exact Or.inl hx
          | inr hx => exact Or.inr hx.1
        · intro hx
          cases hx with
          | inl hx => exact Or.inl hx
          | inr hx =>
            by_cases hgx : x ∈ g.initiators
            · exact Or.inl hgx
            · exact Or.inr ⟨hx, hgx⟩
      · intro hL hR
        rw [hcalls]
        show (g.initiators ++ L.filter (fun i => !(g.initiators.contains i))).Nodup
        refine List.Nodup.append hR (hL.filter _) ?_
        intro a ha hfa
        exact ((hmem a).mp hfa).2 ha
      · intro hsub
        exact absurd (List.filter_eq_nil_iff.mpr
          (fun a ha => by simp [hsub a ha])) hm

/-- Witness for `initialize_vag_correct`: local initiators A and B against a
group registering only A — the driver adds exactly B, the group converges
to A,B with no duplicates. -/
theorem initialize_vag_correct_w :
    initialize_vag [VolumeAccessGroup.mk "cid" 3 ["A"]] "cid" ["A", "B"] =
      [VagCall.addInitiators 3 ["B"]] ∧
    (vag_after ["A"] (initialize_vag [VolumeAccessGroup.mk "cid" 3 ["A"]] "cid" ["A", "B"])).Nodup :=
  ⟨by decide,
   ((initialize_vag_correct [VolumeAccessGroup.mk "cid" 3 ["A"]] "cid" ["A", "B"]).2
     (VolumeAccessGroup.mk "cid" 3 ["A"]) (by decide)).2.2.2.1 (by decide) (by decide)⟩

/-! ### Claim theorems: profile resolution -/

/-- C7: when the profile name misses the registry, or the record it finds
lacks any of minIOPS/maxIOPS/burstIOPS, the CreateVolume request carries no
qos block, and the miss never fails the create: it succeeds exactly as a
profile-less create does (whenever the dataset id parses). -/
theorem create_profile_miss (cfg : DriverCfg) (st : ClusterState) (dataset_id : String)
    (size : Nat) (profile_name : Option String)
    (hmiss : profile_name.bind (fun n => dictGet cfg.profiles n) = none ∨
       ∃ p, profile_name.bind (fun n => dictGet cfg.profiles n) = some p ∧
         ¬(hasKey p "minIOPS" = true ∧ hasKey p "maxIOPS" = true ∧
           hasKey p "burstIOPS" = true)) :
    (create_volume_with_profile cfg st dataset_id size profile_name).1 =
      [Call.createVolume (CreateVolumeParams.mk (cfg.volume_prefix ++ dataset_id)
         cfg.account_id 1 size true none),
       Call.addVolumesToVAG cfg.vag_id [(st.nextID : Int)]] ∧
    ((uuidParse dataset_id).isSome →
       ∃ bd, (create_volume_with_profile cfg st dataset_id size profile_name).2.2 =
         Except.ok bd) := by
  have hpp : process_profile cfg.profiles profile_name = none ∨
      process_profile cfg.profiles profile_name = some ([] : List (String × Nat)) := by
    unfold process_profile
    cases hmiss with
    | inl h => rw [h]; exact Or.inl rfl
    | inr h =>
      obtain ⟨p, hp, hk⟩ := h
      rw [hp]
      cases p with
      | nil => exact Or.inr rfl
      | cons a as =>
        have hcond : (hasKey (a :: as) "minIOPS" && hasKey (a :: as) "maxIOPS" &&
            hasKey (a :: as) "burstIOPS") = false := by
          apply Bool.eq_false_iff.mpr
          intro hc
          rw [Bool.and_eq_true, Bool.and_eq_true] at hc
          exact hk ⟨hc.1.1, hc.1.2, hc.2⟩
        refine Or.inl ?_
        simp [hp, hcond]
  have hqos : qos_params (process_profile cfg.profiles profile_name) =
      (none : Option QosBlock) := by
    cases hpp with
    | inl h => rw [h]; rfl
    | inr h => rw [h]; rfl
  constructor
  · cases hu : uuidParse dataset_id with
    | none => simp [create_volume_with_profile, hqos, hu]
    | some d => simp [create_volume_with_profile, hqos, hu]
  · intro hud
    obtain ⟨d, hd⟩ := Option.isSome_iff_exists.mp hud
    exact ⟨BlockDeviceVolume.mk (toString st.nextID) size none d,
      by simp [create_volume_with_profile, hd]⟩

/-- Witness for `create_profile_miss`: an unregistered profile name
("Platinum") on a create of 1 GiB — no qos block, create succeeds. -/
theorem create_profile_miss_w :
    (create_volume_with_profile cfg0 (ClusterState.mk [] 1) uuidA 1073741824
       (some "Platinum")).1 =
      [Call.createVolume (CreateVolumeParams.mk uuidA 10 1 1073741824 true none),
       Call.addVolumesToVAG 77 [(1 : Int)]] ∧
    ∃ bd, (create_volume_with_profile cfg0 (ClusterState.mk [] 1) uuidA 1073741824
       (some "Platinum")).2.2 = Except.ok bd :=
  ⟨(create_profile_miss cfg0 (ClusterState.mk [] 1) uuidA 1073741824 (some "Platinum")
      (Or.inl (by decide))).1,
   (create_profile_miss cfg0 (ClusterState.mk [] 1) uuidA 1073741824 (some "Platinum")
      (Or.inl (by decide))).2 (by decide)⟩

/-- C8: when the profile name resolves to a record holding the three QoS
fields, the CreateVolume request's qos block holds exactly the keys
minIOPS, maxIOPS and burstIOPS with the record's values — extra keys of the
record are not forwarded. The witness instantiates it at the built-in Gold
profile, yielding qos minIOPS 5000, maxIOPS 8000, burstIOPS 15000. -/
theorem create_profile_qos (cfg : DriverCfg) (st : ClusterState) (dataset_id : String)
    (size : Nat) (n : String) (p : List (String × Nat)) (v1 v2 v3 : Nat)
    (hlook : dictGet cfg.profiles n = some p)
    (h1 : dictGet p "minIOPS" = some v1)
    (h2 : dictGet p "maxIOPS" = some v2)
    (h3 : dictGet p "burstIOPS" = some v3) :
    (create_volume_with_profile cfg st dataset_id size (some n)).1 =
      [Call.createVolume (CreateVolumeParams.mk (cfg.volume_prefix ++ dataset_id)
         cfg.account_id 1 size true
         (some [("minIOPS", v1), ("maxIOPS", v2), ("burstIOPS", v3)])),
       Call.addVolumesToVAG cfg.vag_id [(st.nextID : Int)]] := by
  have hne : p ≠ [] := by
    intro h
    rw [h] at h1
    cases h1
  have hem : p.isEmpty = false := by
    cases p with
    | nil => exact absurd rfl hne
    | cons a as => rfl
  have hkeys : (hasKey p "minIOPS" && hasKey p "maxIOPS" && hasKey p "burstIOPS") = true := by
    simp [hasKey, h1, h2, h3]
  have hpp : process_profile cfg.profiles (some n) = some p := by
    simp [process_profile, hlook, hem, hkeys]
  have hqos : qos_params (process_profile cfg.profiles (some n)) =
      some [("minIOPS", v1), ("maxIOPS", v2), ("burstIOPS", v3)] := by
    simp [qos_params, hpp, hem, h1, h2, h3]
  cases hu : uuidParse dataset_id with
  | none => simp [create_volume_with_profile, hqos, hu]
  | some d => simp [create_volume_with_profile, hqos, hu]

/-- Witness for `create_profile_qos`: the built-in Gold profile's qos
block. -/
theorem create_profile_qos_w :
    (create_volume_with_profile cfg0 (ClusterState.mk [] 1) uuidA 1073741824
       (some "Gold")).1 =
      [Call.createVolume (CreateVolumeParams.mk uuidA 10 1 1073741824 true
         (some [("minIOPS", 5000), ("maxIOPS", 8000), ("burstIOPS", 15000)])),
       Call.addVolumesToVAG 77 [(1 : Int)]] :=
  create_profile_qos cfg0 (ClusterState.mk [] 1) uuidA 1073741824 "Gold"
    [("minIOPS", 5000), ("maxIOPS", 8000), ("burstIOPS", 15000)] 5000 8000 15000
    (by decide) (by decide) (by decide) (by decide)

/-! ### Claim theorems: the create/list round trip -/

/-- A volume whose recovered name parses translates to a BlockDeviceVolume
carrying the cluster volume id, the cluster size and the parsed dataset. -/
theorem to_block_device_ok (cfg : DriverCfg) (ps : String → Bool) (iid : String)
    (v : SFVolume) (d : String) (h : uuidParse (recover_name v.name) = some d) :
    to_block_device cfg ps iid v =
      Except.ok (BlockDeviceVolume.mk (toString v.volumeID) v.totalSize
        (if ps (device_path cfg.svip v.iqn) then some iid else none) d) := by
  simp [to_block_device, h]

/-- Appending one translatable volume appends its translation. -/
theorem build_volumes_append_one (cfg : DriverCfg) (ps : String → Bool) (iid : String)
    (vs : List SFVolume) (v : SFVolume) (l : List BlockDeviceVolume)
    (b : BlockDeviceVolume)
    (h1 : build_volumes cfg ps iid vs = Except.ok l)
    (h2 : to_block_device cfg ps iid v = Except.ok b) :
    build_volumes cfg ps iid (vs ++ [v]) = Except.ok (l ++ [b]) := by
  induction vs generalizing l with
  | nil =>
    simp only [build_volumes, Except.ok.injEq] at h1
    subst h1
    simp [build_volumes, h2]
  | cons x xs ih =>
    rw [List.cons_append]
    simp only [build_volumes] at h1 ⊢
    cases hx : to_block_device cfg ps iid x with
    | error e =>
      rw [hx] at h1
      simp at h1
    | ok bx =>
      rw [hx] at h1
      cases hxs : build_volumes cfg ps iid xs with
      | error e =>
        rw [hxs] at h1
        simp at h1
      | ok lxs =>
        rw [hxs] at h1
        simp at h1
        subst h1
        rw [ih lxs hxs]
        simp

/-- When every listed volume's recovered name parses, the listing loop
completes. -/
theorem build_volumes_total (cfg : DriverCfg) (ps : String → Bool) (iid : String)
    (vs : List SFVolume)
    (h : ∀ v ∈ vs, (uuidParse (recover_name v.name)).isSome) :
    ∃ l, build_volumes cfg ps iid vs = Except.ok l := by
  induction vs with
  | nil => exact ⟨[], rfl⟩
  | cons x xs ih =>
    obtain ⟨d, hd⟩ := Option.isSome_iff_exists.mp (h x (List.mem_cons_self x xs))
    obtain ⟨l, hl⟩ := ih (fun v hv => h v (List.mem_cons_of_mem x hv))
    refine ⟨BlockDeviceVolume.mk (toString x.volumeID) x.totalSize
      (if ps (device_path cfg.svip x.iqn) then some iid else none) d :: l, ?_⟩
    simp [build_volumes, to_block_device_ok cfg ps iid x d hd, hl]

/-- C2 counterexample: with the configured prefix `pre-`, create succeeds
but the subsequent listing — which strips only the fixed marker `flock-`,
not the configured prefix — fails to parse `pre-<uuid>` as a dataset UUID
and raises, so no listed volume carries the dataset id at all. -/
theorem create_list_roundtrip_cex :
    (create_volume_with_profile cfgP (ClusterState.mk [] 1) uuidA 1073741824 none).2.2 =
      Except.ok (BlockDeviceVolume.mk "1" 1073741824 none uuidA) ∧
    (list_volumes cfgP
       (create_volume_with_profile cfgP (ClusterState.mk [] 1) uuidA 1073741824 none).2.1
       (fun _ => false) "host-a").2 = Except.error DriverError.valueError := by
  decide

/-- C2 (amended): after create(D, S) succeeds, list contains a volume with
dataset D and size S — provided removing the fixed marker `flock-` from the
composed cluster name `<prefix>D` recovers D (so for the prefixes `` and
`flock-`; the recovery uses the fixed marker, not the configured prefix),
and every other account volume's name also recovers to a parseable dataset. -/
theorem create_list_roundtrip (cfg : DriverCfg) (st : ClusterState) (dataset_id : String)
    (size : Nat) (profile_name : Option String) (ps : String → Bool) (iid : String)
    (hD : uuidParse dataset_id = some dataset_id)
    (hrec : recover_name (cfg.volume_prefix ++ dataset_id) = dataset_id)
    (hst : ∀ v ∈ st.volumes, v.accountID = cfg.account_id →
        (uuidParse (recover_name v.name)).isSome) :
    ∃ bd l,
      (create_volume_with_profile cfg st dataset_id size profile_name).2.2 =
        Except.ok bd ∧
      (list_volumes cfg (create_volume_with_profile cfg st dataset_id size profile_name).2.1
         ps iid).2 = Except.ok l ∧
      ∃ b ∈ l, b.dataset_id = dataset_id ∧ b.size = size := by
  have hcreate : (create_volume_with_profile cfg st dataset_id size profile_name).2.2 =
      Except.ok (BlockDeviceVolume.mk (toString st.nextID) size none dataset_id) := by
    simp [create_volume_with_profile, hD]
  have hstate : (create_volume_with_profile cfg st dataset_id size profile_name).2.1 =
      ClusterState.mk (st.volumes ++
        [SFVolume.mk st.nextID (cfg.volume_prefix ++ dataset_id) size
           (cluster_iqn (cfg.volume_prefix ++ dataset_id) st.nextID) cfg.account_id])
        (st.nextID + 1) := by
    simp [create_volume_with_profile, hD]
  have hfilter : (st.volumes ++
        [SFVolume.mk st.nextID (cfg.volume_prefix ++ dataset_id) size
           (cluster_iqn (cfg.volume_prefix ++ dataset_id) st.nextID) cfg.account_id]).filter
        (fun v => v.accountID == cfg.account_id) =
      st.volumes.filter (fun v => v.accountID == cfg.account_id) ++
        [SFVolume.mk st.nextID (cfg.volume_prefix ++ dataset_id) size
           (cluster_iqn (cfg.volume_prefix ++ dataset_id) st.nextID) cfg.account_id] := by
    rw [List.filter_append]
    simp
  have hexist : ∀ v ∈ st.volumes.filter (fun v => v.accountID == cfg.account_id),
      (uuidParse (recover_name v.name)).isSome := by
    intro v hv
    rw [List.mem_filter] at hv
    exact hst v hv.1 (by simpa using hv.2)
  obtain ⟨l0, hl0⟩ := build_volumes_total cfg ps iid _ hexist
  have hnb : to_block_device cfg ps iid
      (SFVolume.mk st.nextID (cfg.volume_prefix ++ dataset_id) size
        (cluster_iqn (cfg.volume_prefix ++ dataset_id) st.nextID) cfg.account_id) =
      Except.ok (BlockDeviceVolume.mk (toString st.nextID) size
        (if ps (device_path cfg.svip (cluster_iqn (cfg.volume_prefix ++ dataset_id) st.nextID))
         then some iid else none) dataset_id) := by
    apply to_block_device_ok
    show uuidParse (recover_name (cfg.volume_prefix ++ dataset_id)) = some dataset_id
    rw [hrec]
    exact hD
  have hbuild := build_volumes_append_one cfg ps iid _ _ l0 _ hl0 hnb
  refine ⟨BlockDeviceVolume.mk (toString st.nextID) size none dataset_id,
    l0 ++ [BlockDeviceVolume.mk (toString st.nextID) size
      (if ps (device_path cfg.svip (cluster_iqn (cfg.volume_prefix ++ dataset_id) st.nextID))
       then some iid else none) dataset_id],
    hcreate, ?_, ?_⟩
  · simp only [list_volumes, hstate]
    rw [hfilter]
    exact hbuild
  · exact ⟨BlockDeviceVolume.mk (toString st.nextID) size
      (if ps (device_path cfg.svip (cluster_iqn (cfg.volume_prefix ++ dataset_id) st.nextID))
       then some iid else none) dataset_id, by simp, rfl, rfl⟩

/-- Witness for `create_list_roundtrip`: prefix `flock-`, an empty cluster,
a 1 GiB create. -/
theorem create_list_roundtrip_w :
    ∃ bd l,
      (create_volume_with_profile cfgF (ClusterState.mk [] 1) uuidA 1073741824 none).2.2 =
        Except.ok bd ∧
      (list_volumes cfgF
         (create_volume_with_profile cfgF (ClusterState.mk [] 1) uuidA 1073741824 none).2.1
         (fun _ => false) "host-a").2 = Except.ok l ∧
      ∃ b ∈ l, b.dataset_id = uuidA ∧ b.size = 1073741824 :=
  create_list_roundtrip cfgF (ClusterState.mk [] 1) uuidA 1073741824 none (fun _ => false)
    "host-a" (by decide) (by decide) (by simp)

end SFDriver
